import Mathlib

/-!
Shallow embedding of `src/actix-tls/src/connect/rustls.rs` (the rustls-based
connector service of actix-net) and proofs about it.

External collaborators (the rustls TLS engine, `ServerName::try_from`
validation, the webpki-roots anchor list) are modelled as parameters or as
oracle answers supplied to each poll, exactly as the spec treats them: opaque
interfaces. Repository code that is referenced but not under `src/`
(`Connection`, the `Host` trait, `actix_service::always_ready!`,
`actix_utils::future::Ready`) is modelled from the spec and marked as such.
-/

deriving instance DecidableEq for Except

namespace ActixTls

/-- Model of `std::io::ErrorKind`. Only `InvalidInput` is constructed by this
module; `other` stands for any kind produced by the TLS engine. -/
inductive IoErrorKind : Type
| invalidInput : IoErrorKind
| other : Nat → IoErrorKind
deriving DecidableEq

/-- Model of `std::io::Error`: a kind together with a message. Both failure
paths of the connector deliver this one concrete type. -/
structure IoError : Type where
  kind : IoErrorKind
  msg : String
deriving DecidableEq

/-- Model of `std::task::Poll`. -/
inductive Poll (α : Type) : Type
| pending : Poll α
| ready : α → Poll α
deriving DecidableEq

/-- Outcome of executing a piece of Rust code that may panic
(`Option::unwrap` on `None`). -/
inductive PanicOr (α : Type) : Type
| panicked : String → PanicOr α
| ok : α → PanicOr α
deriving DecidableEq

/-- Modelled from the spec: the `Host` trait (crate::connect, not under src/) —
connection metadata exposes at least a hostname accessor. -/
class Host (R : Type) where
  hostname : R → String

/-- Modelled from the spec: `Connection<R, S>` (crate::connect::Connection, not
under src/): a generic pairing of routing/identity metadata and an I/O stream
handle. -/
structure Connection (R : Type) (S : Type) : Type where
  req : R
  io : S
deriving DecidableEq

/-- Modelled from the spec: `Connection::replace_io` — detach the current io,
returning it alongside the connection re-paired with the new io; the metadata
is untouched (the split losslessly reconstructs the original connection). -/
def Connection.replace_io {R A B : Type} (c : Connection R A) (new : B) :
    A × Connection R B :=
  (c.io, { req := c.req, io := new })

/-- Model of `rustls::client::ServerName`: a validated server identity.
Which strings validate is decided by `ServerName::try_from`, an external
collaborator kept as a parameter `tryFrom` below. -/
structure ServerName : Type where
  name : String
deriving DecidableEq

/-- Model of `tokio_rustls::client::TlsStream<S>`: the encrypted-stream
wrapper around the same underlying raw stream. -/
structure TlsStream (S : Type) : Type where
  inner : S
deriving DecidableEq

/-- Model of `Arc<T>`: a shared-ownership handle. `alloc` identifies the
allocation, so two handles with equal `alloc` are the identical shared
instance; `Arc::clone` is a reference-count increment, not a deep copy. -/
structure Arc (α : Type) : Type where
  alloc : Nat
  value : α
deriving DecidableEq

/-- `Arc::clone`: returns a handle to the same allocation. -/
def Arc.clone {α : Type} (a : Arc α) : Arc α := a

/-- Diagnostic trace events emitted by the connector (the two `trace!` calls
in the source). -/
inductive TraceEvent : Type
| handshakeStart : String → TraceEvent
| handshakeSuccess : String → TraceEvent
deriving DecidableEq

/-- `TlsConnector`: connector service factory holding the shared rustls client
configuration. `G` is the (opaque) `ClientConfig` payload type. -/
structure TlsConnector (G : Type) : Type where
  connector : Arc G
deriving DecidableEq

/-- `TlsConnectorService`: connector service holding the shared rustls client
configuration. -/
structure TlsConnectorService (G : Type) : Type where
  connector : Arc G
deriving DecidableEq

/-- `TlsConnector::new` — constructs the factory from a client config. -/
def TlsConnector.new {G : Type} (connector : Arc G) : TlsConnector G :=
  { connector := connector }

/-- `TlsConnector::service` — constructs the service directly. -/
def TlsConnector.service {G : Type} (connector : Arc G) : TlsConnectorService G :=
  { connector := connector }

/-- Modelled from the spec: `actix_utils::future::Ready` (actix-utils, not
under src/) — a deferred value that is already complete. -/
structure Ready (α : Type) : Type where
  val : α
deriving DecidableEq

/-- Polling a `Ready` future: it never suspends. -/
def Ready.poll {α : Type} (r : Ready α) : Poll α := Poll.ready r.val

/-- Modelled from the spec: `actix_utils::future::ok` — an immediately-ready
successful future. -/
def readyOk {α ε : Type} (a : α) : Ready (Except ε α) := { val := Except.ok a }

/-- `TlsConnector::new_service` (the `ServiceFactory` impl): clones the shared
config handle into a fresh service, wrapped in an immediately-ready `Ok`. -/
def TlsConnector.new_service {G : Type} (f : TlsConnector G) :
    Ready (Except Unit (TlsConnectorService G)) :=
  readyOk { connector := Arc.clone f.connector }

/-- Modelled from the spec: the expansion of `actix_service::always_ready!()`
(actix-service, not under src/) — readiness polling unconditionally reports
ready to accept work. -/
def TlsConnectorService.poll_ready {G : Type} (_svc : TlsConnectorService G) :
    Poll (Except IoError Unit) :=
  Poll.ready (Except.ok ())

/-- `ConnectFut<R, ·>`: the connect future (handshake state machine). The
inner `RustlsConnect` handshake future is opaque; `C` is its token type.
`connect = none ∧ connection = none` is the permanently-failed sentinel
produced on hostname-validation failure. -/
structure ConnectFut (R : Type) (C : Type) : Type where
  connect : Option C
  connection : Option (Connection R Unit)
deriving DecidableEq

/-- `TlsConnectorService::call`. External collaborators are parameters:
`tryFrom` models `ServerName::try_from` (pure validation) and `connect`
models `RustlsTlsConnector::from(config).connect(host, stream)` (construction
of the inner handshake future from the cloned config, the validated identity
and the detached raw stream). Returns the trace events emitted during the
call together with the state-machine value. -/
def TlsConnectorService.call {G R S C : Type} [Host R]
    (tryFrom : String → Option ServerName)
    (connect : Arc G → ServerName → S → C)
    (svc : TlsConnectorService G) (connection : Connection R S) :
    List TraceEvent × ConnectFut R C :=
  let ev := [TraceEvent.handshakeStart (Host.hostname connection.req)]
  let p := Connection.replace_io connection ()
  let stream := p.1
  let connection := p.2
  match tryFrom (Host.hostname connection.req) with
  | some host =>
      (ev,
        { connect := some (connect (Arc.clone svc.connector) host stream),
          connection := some connection })
  | none => (ev, { connect := none, connection := none })

/-- Answer of one poll of the inner `RustlsConnect` handshake future, supplied
by the TLS engine (external collaborator): still pending, finished with an
encrypted stream, or failed with an engine error. -/
inductive InnerPoll (T : Type) : Type
| pending : InnerPoll T
| finished : T → InnerPoll T
| failed : IoError → InnerPoll T
deriving DecidableEq

/-- The fixed unsupported-destination error message. -/
def unsupportedMsg : String :=
  "actix-tls currently only handles hostname-based connections"

/-- The fixed unsupported-destination error value
(`io::Error::new(io::ErrorKind::InvalidInput, ...)`). -/
def unsupportedErr : IoError :=
  { kind := IoErrorKind.invalidInput, msg := unsupportedMsg }

/-- `ConnectFut::poll` (the `Future` impl). `answer` is what polling the inner
handshake future returns this time; it is consulted only when an inner future
is present. Returns the successor state, the poll result and the trace events
emitted, or a panic when the parked connection is absent on the success path
(`connection.take().unwrap()`). -/
def ConnectFut.poll {R C S : Type} [Host R]
    (fut : ConnectFut R C) (answer : InnerPoll (TlsStream S)) :
    PanicOr (ConnectFut R C ×
      Poll (Except IoError (Connection R (TlsStream S))) × List TraceEvent) :=
  match fut.connect with
  | none =>
      PanicOr.ok (fut, Poll.ready (Except.error unsupportedErr), [])
  | some c =>
      match answer with
      | InnerPoll.pending =>
          PanicOr.ok ({ connect := some c, connection := fut.connection },
            Poll.pending, [])
      | InnerPoll.failed e =>
          PanicOr.ok ({ connect := some c, connection := fut.connection },
            Poll.ready (Except.error e), [])
      | InnerPoll.finished stream =>
          match fut.connection with
          | none => PanicOr.panicked "called Option::unwrap on a None value"
          | some conn =>
              PanicOr.ok ({ connect := some c, connection := none },
                Poll.ready (Except.ok (Connection.replace_io conn stream).2),
                [TraceEvent.handshakeSuccess (Host.hostname conn.req)])

/-- Trust anchor as found in the compiled-in `webpki_roots::TLS_SERVER_ROOTS`
list (subject, spki and name constraints as opaque byte strings). -/
structure TrustAnchor : Type where
  subject : List Nat
  spki : List Nat
  name_constraints : Option (List Nat)
deriving DecidableEq

/-- Model of `rustls::OwnedTrustAnchor`. -/
structure OwnedTrustAnchor : Type where
  subject : List Nat
  spki : List Nat
  name_constraints : Option (List Nat)
deriving DecidableEq

/-- `OwnedTrustAnchor::from_subject_spki_name_constraints`. -/
def OwnedTrustAnchor.from_subject_spki_name_constraints
    (subject : List Nat) (spki : List Nat) (nc : Option (List Nat)) :
    OwnedTrustAnchor :=
  { subject := subject, spki := spki, name_constraints := nc }

/-- Model of `rustls::RootCertStore`: an ordered collection of trust
anchors. -/
structure RootCertStore : Type where
  roots : List OwnedTrustAnchor
deriving DecidableEq

/-- `RootCertStore::empty`. -/
def RootCertStore.empty : RootCertStore := { roots := [] }

/-- Modelled from the spec: `RootCertStore::add_trust_anchors` (rustls crate,
external collaborator) — appends the given anchors to the ordered store, no
deduplication (spec §4.1: order-preserving, duplicates allowed). -/
def RootCertStore.add_trust_anchors (s : RootCertStore)
    (certs : List OwnedTrustAnchor) : RootCertStore :=
  { roots := s.roots ++ certs }

/-- Conversion applied to each compiled-in anchor by
`webpki_roots_cert_store`. -/
def convertAnchor (cert : TrustAnchor) : OwnedTrustAnchor :=
  OwnedTrustAnchor.from_subject_spki_name_constraints
    cert.subject cert.spki cert.name_constraints

/-- `webpki_roots_cert_store`, generic over the compiled-in anchor list
`TLS_SERVER_ROOTS` (static data of the webpki-roots crate): folds the `for`
loop of the source over the list. -/
def webpki_roots_cert_store (tls_server_roots : List TrustAnchor) :
    RootCertStore :=
  tls_server_roots.foldl
    (fun root_certs cert =>
      RootCertStore.add_trust_anchors root_certs [convertAnchor cert])
    RootCertStore.empty

/-- Invariant of the handshake state machine: whenever the inner handshake is
present (`Pending` state), the parked connection metadata is also present. -/
def ConnectFut.parkedInv {R C : Type} (fut : ConnectFut R C) : Prop :=
  fut.connect.isSome → fut.connection.isSome

instance {R C : Type} (fut : ConnectFut R C) : Decidable (ConnectFut.parkedInv fut) := by
  unfold ConnectFut.parkedInv
  infer_instance

/-- Concrete metadata type used to instantiate the generic theorems. -/
structure Meta : Type where
  host : String
deriving DecidableEq

instance : Host Meta := ⟨Meta.host⟩

/-- Concrete stand-in for `ServerName::try_from` used to instantiate the
generic theorems: rejects the empty hostname (an example the spec gives of an
invalid identity), accepts the rest. -/
def tryFromTest (s : String) : Option ServerName :=
  if s = "" then none else some { name := s }

/-- Concrete stand-in for the TLS engine's handshake construction. -/
def connectTest : Arc Unit → ServerName → Nat → Unit := fun _ _ _ => ()

/-- Concrete service instance. -/
def svcTest : TlsConnectorService Unit :=
  { connector := { alloc := 0, value := () } }

/-- C1: for a connection whose metadata hostname validates as a server
identity, when the handshake future produced by `TlsConnectorService::call`
resolves successfully, the output connection carries the input connection's
metadata unchanged (in particular the hostname), with only the stream
component replaced by the encrypted stream. -/
theorem call_success_preserves_metadata {G R S C : Type} [Host R]
    (tryFrom : String → Option ServerName)
    (connect : Arc G → ServerName → S → C)
    (svc : TlsConnectorService G) (conn : Connection R S)
    (host : ServerName)
    (h : tryFrom (Host.hostname conn.req) = some host)
    (stream : TlsStream S) :
    ConnectFut.poll
      (TlsConnectorService.call tryFrom connect svc conn).2
      (InnerPoll.finished stream)
    = PanicOr.ok
        ({ connect := some (connect (Arc.clone svc.connector) host conn.io),
           connection := none },
         Poll.ready (Except.ok { req := conn.req, io := stream }),
         [TraceEvent.handshakeSuccess (Host.hostname conn.req)]) := by
  simp only [TlsConnectorService.call, Connection.replace_io, h]
  rfl

/-- Witness for C1 at a concrete input: hostname "example.com" validates, the
handshake resolves, and the metadata comes back unchanged. -/
theorem call_success_preserves_metadata_witness :
    tryFromTest (Host.hostname (Meta.mk "example.com")) = some { name := "example.com" } ∧
    ConnectFut.poll
      (TlsConnectorService.call tryFromTest connectTest svcTest
        { req := Meta.mk "example.com", io := (7 : Nat) }).2
      (InnerPoll.finished { inner := (7 : Nat) })
    = PanicOr.ok
        ({ connect := some (connectTest (Arc.clone svcTest.connector)
              { name := "example.com" } 7),
           connection := none },
         Poll.ready (Except.ok { req := Meta.mk "example.com", io := { inner := (7 : Nat) } }),
         [TraceEvent.handshakeSuccess (Host.hostname (Meta.mk "example.com"))]) :=
  ⟨by decide,
   call_success_preserves_metadata tryFromTest connectTest svcTest
     { req := Meta.mk "example.com", io := (7 : Nat) }
     { name := "example.com" } (by decide) { inner := (7 : Nat) }⟩

/-- C2: for a connection whose metadata hostname fails identity validation,
`call` produces the sentinel state holding no handshake and no parked
metadata, and every poll of it (the first included) returns the terminal
unsupported-destination error, whatever the inner-poll answer would have been
(no handshake future is constructed and no handshake I/O is consulted). -/
theorem call_invalid_hostname_sentinel {G R S C : Type} [Host R]
    (tryFrom : String → Option ServerName)
    (connect : Arc G → ServerName → S → C)
    (svc : TlsConnectorService G) (conn : Connection R S)
    (h : tryFrom (Host.hostname conn.req) = none) :
    (TlsConnectorService.call tryFrom connect svc conn).2
      = { connect := none, connection := none } ∧
    ∀ answer : InnerPoll (TlsStream S),
      ConnectFut.poll (TlsConnectorService.call tryFrom connect svc conn).2 answer
        = PanicOr.ok ({ connect := none, connection := none },
            Poll.ready (Except.error unsupportedErr), []) := by
  have hfut : (TlsConnectorService.call tryFrom connect svc conn).2
      = { connect := none, connection := none } := by
    simp only [TlsConnectorService.call, Connection.replace_io, h]
  refine ⟨hfut, fun answer => ?_⟩
  rw [hfut]
  rfl

/-- Witness for C2 at a concrete input: the empty hostname fails validation
and the first poll already yields the unsupported-destination error. -/
theorem call_invalid_hostname_sentinel_witness :
    tryFromTest (Host.hostname (Meta.mk "")) = none ∧
    ConnectFut.poll
      (TlsConnectorService.call tryFromTest connectTest svcTest
        { req := Meta.mk "", io := (7 : Nat) }).2
      (InnerPoll.pending : InnerPoll (TlsStream Nat))
      = PanicOr.ok ({ connect := none, connection := none },
          Poll.ready (Except.error unsupportedErr), []) :=
  ⟨by decide,
   (call_invalid_hostname_sentinel tryFromTest connectTest svcTest
      { req := Meta.mk "", io := (7 : Nat) } (by decide)).2 InnerPoll.pending⟩

/-- C3 counterexample: a concrete handshake future that resolved to success
(first conjunct) does not stay resolved as success when polled again: the
source keeps no terminal-success latch, so the second poll consults the inner
handshake future again — an inner answer of pending yields Pending, not a
resolved success (second conjunct), and an inner answer of a finished stream
panics on the already-taken parked metadata (third conjunct). -/
theorem poll_after_success_not_stable :
    ConnectFut.poll
      (TlsConnectorService.call tryFromTest connectTest svcTest
        { req := Meta.mk "example.com", io := (7 : Nat) }).2
      (InnerPoll.finished { inner := (7 : Nat) })
      = PanicOr.ok ({ connect := some (), connection := none },
          Poll.ready (Except.ok
            { req := Meta.mk "example.com", io := { inner := (7 : Nat) } }),
          [TraceEvent.handshakeSuccess "example.com"]) ∧
    ConnectFut.poll ({ connect := some (), connection := none } : ConnectFut Meta Unit)
      (InnerPoll.pending : InnerPoll (TlsStream Nat))
      = PanicOr.ok ({ connect := some (), connection := none }, Poll.pending, []) ∧
    ConnectFut.poll ({ connect := some (), connection := none } : ConnectFut Meta Unit)
      (InnerPoll.finished { inner := (7 : Nat) })
      = PanicOr.panicked "called Option::unwrap on a None value" := by
  refine ⟨rfl, rfl, rfl⟩

/-- C3 (amended): the unsupported-destination sentinel is idempotent — every
poll of a future holding no handshake returns the identical fixed error and
leaves the state unchanged, however many times it is polled; an operation
that resolved to success, however, has no terminal latch: its parked
metadata is gone, and re-polling it can never return a success result
again. -/
theorem terminal_state_idempotence {R C S : Type} [Host R] :
    (∀ (fut : ConnectFut R C) (answer : InnerPoll (TlsStream S)),
      fut.connect = none →
      ConnectFut.poll fut answer
        = PanicOr.ok (fut, Poll.ready (Except.error unsupportedErr), [])) ∧
    (∀ (fut : ConnectFut R C) (c : C),
      fut.connect = some c → fut.connection = none →
      ∀ (answer : InnerPoll (TlsStream S)) (fut' : ConnectFut R C)
        (conn : Connection R (TlsStream S)) (evs : List TraceEvent),
        ConnectFut.poll fut answer
          ≠ PanicOr.ok (fut', Poll.ready (Except.ok conn), evs)) := by
  constructor
  · intro fut answer hnone
    unfold ConnectFut.poll
    rw [hnone]
  · intro fut c hsome hnone answer fut' conn evs
    unfold ConnectFut.poll
    rw [hsome]
    cases answer with
    | pending => simp
    | failed e => simp
    | finished stream => rw [hnone]; simp

/-- Witness for the amended C3 at concrete inputs: the sentinel returns its
fixed error (and unchanged state) when polled, and the post-success state
cannot yield a success result again. -/
theorem terminal_state_idempotence_witness :
    ConnectFut.poll ({ connect := none, connection := none } : ConnectFut Meta Unit)
      (InnerPoll.pending : InnerPoll (TlsStream Nat))
      = PanicOr.ok ({ connect := none, connection := none },
          Poll.ready (Except.error unsupportedErr), []) ∧
    ConnectFut.poll ({ connect := some (), connection := none } : ConnectFut Meta Unit)
      (InnerPoll.pending : InnerPoll (TlsStream Nat))
      ≠ PanicOr.ok ({ connect := some (), connection := none },
          Poll.ready (Except.ok { req := Meta.mk "x", io := { inner := (0 : Nat) } }),
          []) :=
  ⟨terminal_state_idempotence.1 _ InnerPoll.pending rfl,
   terminal_state_idempotence.2 _ () rfl rfl InnerPoll.pending _ _ _⟩

/-- C4: state-machine invariant — `call` only produces states where the
presence of the inner handshake implies the presence of the parked metadata;
a poll that comes back pending preserves the invariant; and under the
invariant no poll can reach the panic on the parked-metadata unwrap. -/
theorem pending_implies_parked {G R S C : Type} [Host R]
    (tryFrom : String → Option ServerName)
    (connect : Arc G → ServerName → S → C)
    (svc : TlsConnectorService G) (conn : Connection R S) :
    ConnectFut.parkedInv (TlsConnectorService.call tryFrom connect svc conn).2 ∧
    (∀ (fut fut' : ConnectFut R C) (answer : InnerPoll (TlsStream S))
       (evs : List TraceEvent),
      ConnectFut.parkedInv fut →
      ConnectFut.poll fut answer = PanicOr.ok (fut', Poll.pending, evs) →
      ConnectFut.parkedInv fut') ∧
    (∀ fut : ConnectFut R C, ConnectFut.parkedInv fut →
      ∀ (answer : InnerPoll (TlsStream S)) (msg : String),
        ConnectFut.poll fut answer ≠ PanicOr.panicked msg) := by
  refine ⟨?_, ?_, ?_⟩
  · unfold TlsConnectorService.call ConnectFut.parkedInv
    simp only [Connection.replace_io]
    cases htf : tryFrom (Host.hostname conn.req) <;> simp [htf]
  · intro fut fut' answer evs hinv hpoll
    unfold ConnectFut.poll at hpoll
    cases hc : fut.connect with
    | none => rw [hc] at hpoll; simp at hpoll
    | some c =>
      rw [hc] at hpoll
      cases answer with
      | pending =>
        simp only [PanicOr.ok.injEq, Prod.mk.injEq] at hpoll
        intro _
        rw [← hpoll.1]
        exact hinv (by rw [hc]; rfl)
      | failed e => simp at hpoll
      | finished stream =>
        cases hconn : fut.connection with
        | none => rw [hconn] at hpoll; simp at hpoll
        | some c2 => rw [hconn] at hpoll; simp at hpoll
  · intro fut hinv answer msg
    unfold ConnectFut.poll
    cases hc : fut.connect with
    | none => simp
    | some c =>
      cases answer with
      | pending => simp
      | failed e => simp
      | finished stream =>
        have hsome : fut.connection.isSome := hinv (by rw [hc]; rfl)
        cases hconn : fut.connection with
        | none => rw [hconn] at hsome; simp at hsome
        | some c2 => simp

/-- Witness for C4 at concrete inputs: the state produced by `call` satisfies
the invariant, and polling a concrete invariant-satisfying pending state with
a finished inner handshake does not panic. -/
theorem pending_implies_parked_witness :
    ConnectFut.parkedInv
      (TlsConnectorService.call tryFromTest connectTest svcTest
        { req := Meta.mk "example.com", io := (7 : Nat) }).2 ∧
    ConnectFut.poll
      ({ connect := some (),
         connection := some { req := Meta.mk "example.com", io := () } } :
        ConnectFut Meta Unit)
      (InnerPoll.finished { inner := (7 : Nat) })
      ≠ PanicOr.panicked "called Option::unwrap on a None value" :=
  ⟨(pending_implies_parked tryFromTest connectTest svcTest
      { req := Meta.mk "example.com", io := (7 : Nat) }).1,
   (pending_implies_parked tryFromTest connectTest svcTest
      { req := Meta.mk "example.com", io := (7 : Nat) }).2.2
     { connect := some (),
       connection := some { req := Meta.mk "example.com", io := () } }
     (by decide) (InnerPoll.finished { inner := (7 : Nat) })
     "called Option::unwrap on a None value"⟩

/-- C5: when the inner handshake future answers with an error while the
operation is pending, poll terminates with exactly that error value — the
identical `IoError`, not retried, translated or wrapped — and the result
carries no connection or metadata alongside it. -/
theorem handshake_error_propagated_verbatim {R C S : Type} [Host R]
    (fut : ConnectFut R C) (c : C) (h : fut.connect = some c) (e : IoError) :
    ConnectFut.poll fut (InnerPoll.failed e : InnerPoll (TlsStream S))
      = PanicOr.ok ({ connect := some c, connection := fut.connection },
          Poll.ready (Except.error e), []) := by
  unfold ConnectFut.poll
  rw [h]

/-- Witness for C5 at a concrete input: a concrete engine error comes back
verbatim. -/
theorem handshake_error_propagated_verbatim_witness :
    ConnectFut.poll
      ({ connect := some (),
         connection := some { req := Meta.mk "example.com", io := () } } :
        ConnectFut Meta Unit)
      (InnerPoll.failed { kind := IoErrorKind.other 3, msg := "handshake failed" }
        : InnerPoll (TlsStream Nat))
      = PanicOr.ok
          ({ connect := some (),
             connection := some { req := Meta.mk "example.com", io := () } },
           Poll.ready (Except.error { kind := IoErrorKind.other 3, msg := "handshake failed" }),
           []) :=
  handshake_error_propagated_verbatim
    { connect := some (),
      connection := some { req := Meta.mk "example.com", io := () } }
    () rfl { kind := IoErrorKind.other 3, msg := "handshake failed" }

/-- C6: the service is always ready — readiness polling unconditionally
reports ready-ok for every service instance — and `call` returns its
state-machine value immediately (with no suspension point): whatever the
validation outcome, the result is already one of the two initial states,
the pending state or the failed sentinel. -/
theorem service_always_ready {G R S C : Type} [Host R]
    (tryFrom : String → Option ServerName)
    (connect : Arc G → ServerName → S → C)
    (svc : TlsConnectorService G) (conn : Connection R S) :
    TlsConnectorService.poll_ready svc = Poll.ready (Except.ok ()) ∧
    ((∃ host, tryFrom (Host.hostname conn.req) = some host ∧
        (TlsConnectorService.call tryFrom connect svc conn).2
          = { connect := some (connect (Arc.clone svc.connector) host conn.io),
              connection := some { req := conn.req, io := () } }) ∨
     (tryFrom (Host.hostname conn.req) = none ∧
      (TlsConnectorService.call tryFrom connect svc conn).2
        = { connect := none, connection := none })) := by
  refine ⟨rfl, ?_⟩
  cases htf : tryFrom (Host.hostname conn.req) with
  | none =>
    exact Or.inr ⟨rfl, by simp [TlsConnectorService.call, Connection.replace_io, htf]⟩
  | some host =>
    exact Or.inl ⟨host, rfl, by simp [TlsConnectorService.call, Connection.replace_io, htf]⟩

/-- C7: `TlsConnector::new_service` never fails and never suspends — it is an
immediately-ready `Ok` value for every factory — and the produced service
holds the identical shared configuration handle (an `Arc` clone of the same
allocation, not a deep copy). -/
theorem new_service_infallible_shares_config {G : Type} (f : TlsConnector G) :
    TlsConnector.new_service f
      = { val := Except.ok { connector := f.connector } } ∧
    Ready.poll (TlsConnector.new_service f)
      = Poll.ready (Except.ok { connector := f.connector }) ∧
    Arc.clone f.connector = f.connector :=
  ⟨rfl, rfl, rfl⟩

/-- Unfolding the accumulator of the trust-store construction fold. -/
theorem trust_store_fold_roots (l : List TrustAnchor) (acc : RootCertStore) :
    (List.foldl (fun root_certs cert =>
        RootCertStore.add_trust_anchors root_certs [convertAnchor cert]) acc l).roots
      = acc.roots ++ l.map convertAnchor := by
  induction l generalizing acc with
  | nil => simp
  | cons a t ih =>
    simp only [List.foldl_cons, List.map_cons]
    rw [ih]
    simp [RootCertStore.add_trust_anchors]

/-- C8: `webpki_roots_cert_store` produces, for every compiled-in anchor
list, a store with exactly one entry per input anchor, in input order,
without deduplication (the result is precisely the anchor-wise conversion of
the input list); being a total function, the construction has no failure
mode. -/
theorem trust_store_one_entry_per_anchor (l : List TrustAnchor) :
    (webpki_roots_cert_store l).roots = l.map convertAnchor ∧
    (webpki_roots_cert_store l).roots.length = l.length := by
  have h := trust_store_fold_roots l RootCertStore.empty
  unfold webpki_roots_cert_store
  rw [h]
  simp [RootCertStore.empty]

/-- C9: the start trace event is the sole event of `call` and is emitted
whatever the validation outcome (so before validation can change anything);
it therefore heads every run log of a single operation, in particular
preceding the success event; and `poll` emits a success event only alongside
a successful resolution (never at call time, never on any other poll
outcome). -/
theorem trace_events_ordering {G R S C : Type} [Host R]
    (tryFrom : String → Option ServerName)
    (connect : Arc G → ServerName → S → C)
    (svc : TlsConnectorService G) (conn : Connection R S) :
    (TlsConnectorService.call tryFrom connect svc conn).1
      = [TraceEvent.handshakeStart (Host.hostname conn.req)] ∧
    (∀ pollEvs : List TraceEvent,
      ((TlsConnectorService.call tryFrom connect svc conn).1 ++ pollEvs).head?
        = some (TraceEvent.handshakeStart (Host.hostname conn.req))) ∧
    (∀ (fut fut' : ConnectFut R C) (answer : InnerPoll (TlsStream S))
       (res : Poll (Except IoError (Connection R (TlsStream S))))
       (evs : List TraceEvent),
      ConnectFut.poll fut answer = PanicOr.ok (fut', res, evs) →
      ∀ s : String, TraceEvent.handshakeSuccess s ∈ evs →
        ∃ c2, res = Poll.ready (Except.ok c2)) := by
  have hcall : (TlsConnectorService.call tryFrom connect svc conn).1
      = [TraceEvent.handshakeStart (Host.hostname conn.req)] := by
    unfold TlsConnectorService.call
    simp only [Connection.replace_io]
    cases htf : tryFrom (Host.hostname conn.req) <;> simp [htf]
  refine ⟨hcall, fun pollEvs => by rw [hcall]; rfl, ?_⟩
  intro fut fut' answer res evs hpoll s hmem
  unfold ConnectFut.poll at hpoll
  cases hc : fut.connect with
  | none =>
    rw [hc] at hpoll
    simp only [PanicOr.ok.injEq, Prod.mk.injEq] at hpoll
    rw [← hpoll.2.2] at hmem
    simp at hmem
  | some c =>
    rw [hc] at hpoll
    cases answer with
    | pending =>
      simp only [PanicOr.ok.injEq, Prod.mk.injEq] at hpoll
      rw [← hpoll.2.2] at hmem
      simp at hmem
    | failed e =>
      simp only [PanicOr.ok.injEq, Prod.mk.injEq] at hpoll
      rw [← hpoll.2.2] at hmem
      simp at hmem
    | finished stream =>
      cases hconn : fut.connection with
      | none => rw [hconn] at hpoll; simp at hpoll
      | some conn2 =>
        rw [hconn] at hpoll
        simp only [PanicOr.ok.injEq, Prod.mk.injEq] at hpoll
        exact ⟨_, hpoll.2.1.symm⟩

/-- Witness for C9 at a concrete input: a concrete poll that emits the
success event indeed resolved successfully. -/
theorem trace_events_ordering_witness :
    ∃ c2, (Poll.ready (Except.ok
        ({ req := Meta.mk "example.com", io := { inner := (7 : Nat) } } :
          Connection Meta (TlsStream Nat)))
      : Poll (Except IoError (Connection Meta (TlsStream Nat))))
      = Poll.ready (Except.ok c2) :=
  (trace_events_ordering tryFromTest connectTest svcTest
      { req := Meta.mk "example.com", io := (7 : Nat) }).2.2
    { connect := some (),
      connection := some { req := Meta.mk "example.com", io := () } }
    { connect := some (), connection := none }
    (InnerPoll.finished { inner := (7 : Nat) })
    (Poll.ready (Except.ok { req := Meta.mk "example.com", io := { inner := (7 : Nat) } }))
    [TraceEvent.handshakeSuccess "example.com"]
    rfl "example.com" (by simp)

/-- C10: both failure kinds are delivered as the same concrete error type
(the `IoError` model of `io::Error`): the sentinel yields the fixed error of
kind `InvalidInput` with the fixed message, identical for every failed
future (no structured detail of the identity-parse failure), and a handshake
failure yields the engine's `IoError` itself. -/
theorem failure_error_shape {R C S : Type} [Host R] :
    unsupportedErr
      = { kind := IoErrorKind.invalidInput,
          msg := "actix-tls currently only handles hostname-based connections" } ∧
    (∀ fut : ConnectFut R C, fut.connect = none →
      ∀ answer : InnerPoll (TlsStream S),
        ConnectFut.poll fut answer
          = PanicOr.ok (fut, Poll.ready (Except.error unsupportedErr), [])) ∧
    (∀ (fut : ConnectFut R C) (c : C), fut.connect = some c →
      ∀ e : IoError,
        ConnectFut.poll fut (InnerPoll.failed e : InnerPoll (TlsStream S))
          = PanicOr.ok ({ connect := some c, connection := fut.connection },
              Poll.ready (Except.error e), [])) := by
  refine ⟨rfl, ?_, ?_⟩
  · intro fut hnone answer
    unfold ConnectFut.poll
    rw [hnone]
  · intro fut c hsome e
    unfold ConnectFut.poll
    rw [hsome]

/-- Witness for C10 at concrete inputs: the sentinel error and a verbatim
engine error, both of the same error type. -/
theorem failure_error_shape_witness :
    ConnectFut.poll ({ connect := none, connection := none } : ConnectFut Meta Unit)
      (InnerPoll.pending : InnerPoll (TlsStream Nat))
      = PanicOr.ok ({ connect := none, connection := none },
          Poll.ready (Except.error unsupportedErr), []) ∧
    ConnectFut.poll ({ connect := some (), connection := none } : ConnectFut Meta Unit)
      (InnerPoll.failed { kind := IoErrorKind.other 5, msg := "cert rejected" }
        : InnerPoll (TlsStream Nat))
      = PanicOr.ok ({ connect := some (), connection := none },
          Poll.ready (Except.error { kind := IoErrorKind.other 5, msg := "cert rejected" }),
          []) :=
  ⟨(failure_error_shape (R := Meta) (C := Unit) (S := Nat)).2.1 _ rfl InnerPoll.pending,
   (failure_error_shape (R := Meta) (C := Unit) (S := Nat)).2.2 _ () rfl
     { kind := IoErrorKind.other 5, msg := "cert rejected" }⟩

end ActixTls
